import Mathlib

/-!
Shallow embedding of the bus-tracking backend (`src/backend/server.js`).

JavaScript numbers are modelled as `JsFloat`: exact rationals extended with
`NaN` and the two infinities (float rounding/overflow is abstracted away;
all concrete inputs in the claims are small and exactly representable).
The two in-memory `Map`s (`busLocations`, `busRoutes`) are modelled as
association lists in insertion order; `Map.set` replaces in place.
Timestamps (`new Date().toISOString()`) are modelled as natural numbers.
-/

deriving instance DecidableEq for Except

/-- Exact rational addition, written with `Rat.divInt` so that the kernel
can evaluate it on concrete inputs (the library's `Rat.add` is
irreducible); `qAdd_eq_add` below shows it is ordinary addition. -/
def qAdd (a b : ℚ) : ℚ := Rat.divInt (a.num * b.den + b.num * a.den) (a.den * b.den)

theorem qAdd_eq_add (a b : ℚ) : qAdd a b = a + b := by
  unfold qAdd
  conv_rhs => rw [← Rat.num_divInt_den a, ← Rat.num_divInt_den b]
  rw [Rat.divInt_add_divInt _ _ (by exact_mod_cast a.den_ne_zero)
    (by exact_mod_cast b.den_ne_zero)]

/-- Model of a JavaScript number as used by the backend: `NaN`, `±Infinity`,
or a finite value (an exact rational). -/
inductive JsFloat where
  | nan : JsFloat
  | inf : JsFloat
  | negInf : JsFloat
  | num : ℚ → JsFloat
deriving DecidableEq, Repr

namespace JsFloat

/-- `isNaN(x)` of JavaScript. -/
def isNaN : JsFloat → Bool
  | .nan => true
  | _ => false

/-- JavaScript addition on numbers (`NaN` propagates; `Infinity + -Infinity` is `NaN`). -/
def add : JsFloat → JsFloat → JsFloat
  | .nan, _ => .nan
  | _, .nan => .nan
  | .inf, .negInf => .nan
  | .negInf, .inf => .nan
  | .inf, _ => .inf
  | _, .inf => .inf
  | .negInf, _ => .negInf
  | _, .negInf => .negInf
  | .num a, .num b => .num (qAdd a b)

/-- JavaScript `x > 0` comparison (`NaN > 0` is false). -/
def gtZero : JsFloat → Bool
  | .inf => true
  | .num q => decide (0 < q)
  | _ => false

/-- JavaScript `Math.max(0, x)` (`NaN` propagates). -/
def max0 : JsFloat → JsFloat
  | .nan => .nan
  | .inf => .inf
  | .negInf => .num 0
  | .num q => .num (max q 0)

/-- `x ≥ 0` in the model (false for `NaN` and `-Infinity`). -/
def nonneg : JsFloat → Bool
  | .inf => true
  | .num q => decide (0 ≤ q)
  | _ => false

/-- JavaScript truthiness-based `x || 0` as applied to a parsed speed:
`NaN` and `0` (and `-0`) are falsy and become `0`. -/
def orZero : JsFloat → JsFloat
  | .nan => .num 0
  | .num q => .num (if q = 0 then 0 else q)
  | x => x

end JsFloat

/-- Numeric value of a list of decimal digit characters. -/
def digitsVal (ds : List Char) : ℕ :=
  ds.foldl (fun a c => a * 10 + (c.toNat - 48)) 0

/-- The exact rational `m * 10 ^ e / 10 ^ k`: the value of a decimal
literal with integer digits of value `m` scaled by `k` fractional digits
and a decimal exponent `e`. Built with `mkRat` so the kernel can
evaluate it. -/
def decimalVal (m : ℤ) (k : ℕ) (e : ℤ) : ℚ :=
  if 0 ≤ e then mkRat (m * 10 ^ e.toNat) (10 ^ k)
  else mkRat m (10 ^ k * 10 ^ (-e).toNat)

/-- Does `needle` occur at the head of `hay`? -/
def leadMatch : List Char → List Char → Bool
  | [], _ => true
  | _ :: _, [] => false
  | a :: t, b :: u => a = b && leadMatch t u

/-- Substring test on character lists: JavaScript `hay.includes(needle)`. -/
def hasSub (needle : List Char) : List Char → Bool
  | [] => leadMatch needle []
  | c :: t => leadMatch needle (c :: t) || hasSub needle t

/-- JavaScript `hay.includes(needle)` on strings. -/
def strIncludes (hay needle : String) : Bool :=
  hasSub needle.data hay.data

/-- JavaScript `s.toLowerCase()`: character-wise lowercasing (the stop
names and queries here are ASCII). -/
def strToLower (s : String) : String := String.mk (s.data.map Char.toLower)

/-- JavaScript `parseFloat` on a string: skip leading whitespace, optional
sign, then either `Infinity` or the longest decimal-literal prefix
(digits, optional fraction, optional exponent with at least one digit);
`NaN` when no numeric prefix exists. Overflow to `±Infinity` for huge
exponents is not modelled (irrelevant to the inputs considered here). -/
def parseFloat (s : String) : JsFloat :=
  let cs0 := s.data.dropWhile Char.isWhitespace
  let neg : Bool := match cs0 with
    | '-' :: _ => true
    | _ => false
  let cs : List Char := match cs0 with
    | '-' :: t => t
    | '+' :: t => t
    | _ => cs0
  if leadMatch "Infinity".data cs then
    if neg then .negInf else .inf
  else
    let ds1 := cs.takeWhile Char.isDigit
    let rest1 := cs.dropWhile Char.isDigit
    let ds2 : List Char := match rest1 with
      | '.' :: t => t.takeWhile Char.isDigit
      | _ => []
    let rest2 : List Char := match rest1 with
      | '.' :: t => t.dropWhile Char.isDigit
      | _ => rest1
    if ds1 = [] ∧ ds2 = [] then .nan
    else
      let k := ds2.length
      let mant : ℤ :=
        (if neg then -1 else 1) * ((digitsVal ds1 * 10 ^ k + digitsVal ds2 : ℕ) : ℤ)
      let expVal : ℤ := match rest2 with
        | 'e' :: '-' :: t2 =>
            let ed := t2.takeWhile Char.isDigit
            if ed = [] then 0 else -(digitsVal ed : ℤ)
        | 'e' :: '+' :: t2 =>
            let ed := t2.takeWhile Char.isDigit
            if ed = [] then 0 else (digitsVal ed : ℤ)
        | 'e' :: t2 =>
            let ed := t2.takeWhile Char.isDigit
            if ed = [] then 0 else (digitsVal ed : ℤ)
        | 'E' :: '-' :: t2 =>
            let ed := t2.takeWhile Char.isDigit
            if ed = [] then 0 else -(digitsVal ed : ℤ)
        | 'E' :: '+' :: t2 =>
            let ed := t2.takeWhile Char.isDigit
            if ed = [] then 0 else (digitsVal ed : ℤ)
        | 'E' :: t2 =>
            let ed := t2.takeWhile Char.isDigit
            if ed = [] then 0 else (digitsVal ed : ℤ)
        | _ => 0
      .num (decimalVal mant k expVal)

/-- `parseFloat` applied to a possibly-absent request-body value
(`parseFloat(undefined)` is `NaN`). -/
def parseFloatOpt : Option String → JsFloat
  | none => .nan
  | some s => parseFloat s

/-- A stop on a route: `{ name, lat, lon }` entries of `sampleRoutes`. -/
structure Stop where
  name : String
  lat : ℚ
  lon : ℚ
deriving DecidableEq, Repr

/-- A route: `{ id, name, buses, stops }` entries of `sampleRoutes`. -/
structure Route where
  id : String
  name : String
  buses : List String
  stops : List Stop
deriving DecidableEq, Repr

/-- The record stored in `busLocations` for one vehicle
(`{ device_id, lat, lon, speed, route_id, updated, status }`). -/
structure LocationRecord where
  device_id : String
  lat : JsFloat
  lon : JsFloat
  speed : JsFloat
  route_id : Option String
  updated : ℕ
  status : String
deriving DecidableEq, Repr

/-- The hard-coded `sampleRoutes` array of the backend. -/
def sampleRoutes : List Route :=
  [ { id := "ROUTE_001",
      name := "City Center - Airport",
      buses := ["BUS_101", "BUS_102"],
      stops :=
        [ { name := "City Center", lat := 11.1563, lon := 77.5932 },
          { name := "Main Market", lat := 11.1663, lon := 77.6032 },
          { name := "University", lat := 11.1763, lon := 77.6132 },
          { name := "Airport", lat := 11.1863, lon := 77.6232 } ] },
    { id := "ROUTE_002",
      name := "Railway Station - Tech Park",
      buses := ["BUS_201", "BUS_202"],
      stops :=
        [ { name := "Railway Station", lat := 11.1463, lon := 77.5832 },
          { name := "Shopping Mall", lat := 11.1513, lon := 77.5932 },
          { name := "Hospital", lat := 11.1613, lon := 77.6032 },
          { name := "Tech Park", lat := 11.1713, lon := 77.6132 } ] } ]

/-- `busLocations.set(k, v)`: replace the entry for `k` in place, or append
a fresh entry (JS `Map` keeps insertion order; keys stay unique). -/
def setLoc : List (String × LocationRecord) → String → LocationRecord →
    List (String × LocationRecord)
  | [], k, v => [(k, v)]
  | p :: t, k, v => if p.1 = k then (k, v) :: t else p :: setLoc t k v

/-- `busLocations.get(k)`. -/
def getLoc : List (String × LocationRecord) → String → Option LocationRecord
  | [], _ => none
  | p :: t, k => if p.1 = k then some p.2 else getLoc t k

/-- The backend's mutable state: the `busLocations` and `busRoutes` maps. -/
structure ServerState where
  busLocations : List (String × LocationRecord)
  busRoutes : List Route
deriving Repr

/-- The seed record created at startup for `busId` of `route`:
first stop's coordinates, speed 0, status `'stopped'` (seed time is 0). -/
def seedRecord (route : Route) (busId : String) : LocationRecord :=
  let s0 := route.stops.headD { name := "", lat := 0, lon := 0 }
  { device_id := busId, lat := .num s0.lat, lon := .num s0.lon,
    speed := .num 0, route_id := some route.id, updated := 0,
    status := "stopped" }

/-- The `sampleRoutes.forEach` initialisation loop filling `busLocations`. -/
def initialLocations : List (String × LocationRecord) :=
  sampleRoutes.foldl
    (fun acc route =>
      route.buses.foldl (fun acc2 busId => setLoc acc2 busId (seedRecord route busId)) acc)
    []

/-- The state right after startup initialisation. -/
def initialState : ServerState :=
  { busLocations := initialLocations, busRoutes := sampleRoutes }

/-- The two 400 responses of `POST /api/locations`:
`'Missing required fields: device_id, lat, lon'` and
`'Invalid latitude or longitude values'`. -/
inductive IngestErr where
  | missingFields : IngestErr
  | invalidCoordinate : IngestErr
deriving DecidableEq, Repr

/-- The 404 response of `GET /api/locations/:device_id` (`'Bus not found'`). -/
inductive QueryErr where
  | notFound : QueryErr
deriving DecidableEq, Repr

/-- The 400 response of `GET /api/search` (`'Missing from or to parameter'`). -/
inductive SearchErr where
  | missingParam : SearchErr
deriving DecidableEq, Repr

/-- The route-lookup loop of the ingest handler: first route whose `buses`
array contains `d`, else `null`. -/
def findRouteId (routes : List Route) (d : String) : Option String :=
  match routes.find? (fun r => r.buses.contains d) with
  | some r => some r.id
  | none => none

/-- The `locationData` object built by a successful `POST /api/locations`:
parsed coordinates, `parseFloat(speed) || 0`, the resolved route, the
current time and the speed-derived status. -/
def ingestRecord (routes : List Route) (d la lo : String) (speed : Option String)
    (now : ℕ) : LocationRecord :=
  let parsedSpeed := (parseFloatOpt speed).orZero
  { device_id := d, lat := parseFloat la, lon := parseFloat lo,
    speed := parsedSpeed, route_id := findRouteId routes d,
    updated := now,
    status := if parsedSpeed.gtZero then "active" else "stopped" }

/-- `POST /api/locations`: validate, parse, resolve the route, build
`locationData` and store it. Request-body values are modelled as
`Option String` (`none` = absent / `undefined`); a numeric JSON value
stands for its decimal string. Returns the response and the new state. -/
def ingest (device lat lon speed : Option String) (now : ℕ) (st : ServerState) :
    Except IngestErr LocationRecord × ServerState :=
  match device, lat, lon with
  | some d, some la, some lo =>
      if d = "" then (.error .missingFields, st)
      else if (parseFloat la).isNaN || (parseFloat lo).isNaN then
        (.error .invalidCoordinate, st)
      else
        let loc := ingestRecord st.busRoutes d la lo speed now
        (.ok loc, { st with busLocations := setLoc st.busLocations d loc })
  | _, _, _ => (.error .missingFields, st)

/-- `GET /api/locations/:device_id`: the stored record or a 404. -/
def getOne (deviceId : String) (st : ServerState) : Except QueryErr LocationRecord :=
  match getLoc st.busLocations deviceId with
  | some l => .ok l
  | none => .error .notFound

/-- The route filter of `GET /api/search` (lines 203–207): keep the routes
one of whose lowercased stop names contains the lowercased `frm`, and one
of whose lowercased stop names contains the lowercased `dst`. -/
def searchRoutes (frm dst : String) (routes : List Route) : List Route :=
  routes.filter (fun route =>
    let stopNames := route.stops.map (fun s => strToLower s.name)
    stopNames.any (fun n => strIncludes n (strToLower frm)) &&
    stopNames.any (fun n => strIncludes n (strToLower dst)))

/-- `GET /api/search` up to route matching: 400 when `from`/`to` is absent
or empty, else the matched routes (from which the response is built). -/
def searchEndpoint (frm dst : Option String) (st : ServerState) :
    Except SearchErr (List Route) :=
  match frm, dst with
  | some f, some t =>
      if f = "" ∨ t = "" then .error .missingParam
      else .ok (searchRoutes f t st.busRoutes)
  | _, _ => .error .missingParam

/-- `Math.round` of JavaScript: round half towards `+∞`. -/
def jsRound (x : ℚ) : ℤ := ⌊x + 1 / 2⌋

/-- `calculateETA` (lines 76–84). The haversine `calculateDistance` mixes
transcendental float operations, so it is abstracted as the `dist`
parameter; everything else follows the source line by line. -/
def calculateETA (dist : ℚ → ℚ → ℚ → ℚ → ℚ)
    (currentLat currentLon destLat destLon speed : ℚ) : String :=
  if speed = 0 then "Stopped"
  else
    let distance := dist currentLat currentLon destLat destLon
    let etaHours := distance / speed
    let etaMinutes := jsRound (etaHours * 60)
    if 0 < etaMinutes then toString etaMinutes ++ " min" else "Arrived"

/-- One record's update in a `simulateBusMovement` tick: `j` is the triple
of random deltas `(latChange, lonChange, speedChange)` the source draws
for this record; `stopped` records are untouched. -/
def tickRecord (j : ℚ × ℚ × ℚ) (now : ℕ) (r : LocationRecord) : LocationRecord :=
  if r.status = "active" then
    { r with lat := r.lat.add (.num j.1), lon := r.lon.add (.num j.2.1),
             speed := (r.speed.add (.num j.2.2)).max0, updated := now }
  else r

/-- One full `simulateBusMovement` tick: every stored record is visited
(in insertion order) with its own random deltas, keyed here by bus id. -/
def tick (jit : String → ℚ × ℚ × ℚ) (now : ℕ) (st : ServerState) : ServerState :=
  { st with
    busLocations := st.busLocations.map (fun p => (p.1, tickRecord (jit p.1) now p.2)) }

/-- Bounds on the random deltas of one tick, from the source expressions
`(Math.random() - 0.5) * 0.001` (lat/lon) and `(Math.random() - 0.5) * 10`
(speed) with `Math.random() ∈ [0, 1)`. -/
def jitterOK (j : ℚ × ℚ × ℚ) : Prop :=
  -(1 / 2000) ≤ j.1 ∧ j.1 < 1 / 2000 ∧
  -(1 / 2000) ≤ j.2.1 ∧ j.2.1 < 1 / 2000 ∧
  -5 ≤ j.2.2 ∧ j.2.2 < 5

/-- States reachable from startup by ingest calls and simulation ticks,
where every ingest's speed argument satisfies `ok` (instantiate `ok` with
the trivial predicate for unrestricted reachability). -/
inductive ReachW (ok : Option String → Prop) : ServerState → Prop where
  | init : ReachW ok initialState
  | ingest (device lat lon speed : Option String) (now : ℕ) (st : ServerState) :
      ReachW ok st → ok speed → ReachW ok (ingest device lat lon speed now st).2
  | tick (jit : String → ℚ × ℚ × ℚ) (now : ℕ) (st : ServerState) :
      ReachW ok st → (∀ b, jitterOK (jit b)) → ReachW ok (tick jit now st)

/-- States reachable from startup by arbitrary ingest calls and ticks. -/
def Reach : ServerState → Prop := ReachW (fun _ => True)

/-- The status/speed relationship that actually holds in every reachable
state: the status is one of the two enum values, a `stopped` record never
has positive speed, and an `active` record has non-negative (possibly
zero) speed. -/
def StatusSpeedOK (r : LocationRecord) : Prop :=
  (r.status = "active" ∨ r.status = "stopped") ∧
  (r.status = "stopped" → r.speed.gtZero = false) ∧
  (r.status = "active" → r.speed.nonneg = true)

instance (r : LocationRecord) : Decidable (StatusSpeedOK r) := by
  unfold StatusSpeedOK
  infer_instance

/-- A speed argument whose parsed-and-defaulted value
(`parseFloat(speed) || 0`) is non-negative. -/
def NonnegSpeedInput (sp : Option String) : Prop :=
  ((parseFloatOpt sp).orZero).nonneg = true

/-- State after one ingest that makes `BUS_101` active at speed 3. -/
def c1Mid : ServerState :=
  (ingest (some "BUS_101") (some "11.16") (some "77.59") (some "3") 1 initialState).2

/-- `c1Mid` after one simulation tick whose speed delta is `-3` (an
admissible random draw), driving the active record's speed to exactly 0. -/
def c1Bad : ServerState := tick (fun _ => (0, 0, -3)) 2 c1Mid

/-- State after one ingest whose speed argument parses to `-5`. -/
def c9Bad : ServerState :=
  (ingest (some "BUS_101") (some "11") (some "77") (some "-5") 1 initialState).2

/-- State after one ingest that makes `BUS_101` active at the origin. -/
def c7Mid : ServerState :=
  (ingest (some "BUS_101") (some "0") (some "0") (some "3") 1 initialState).2

/-- A tick's random deltas with the latitude delta at the lower boundary
`-0.0005` (drawn when `Math.random()` returns exactly 0). -/
def c7Jit : String → ℚ × ℚ × ℚ := fun _ => (mkRat (-1) 2000, 0, 0)

/-- `c7Mid` after one simulation tick with deltas `c7Jit`. -/
def c7Bad : ServerState := tick c7Jit 2 c7Mid

/-! ### Store and state lemmas -/

theorem getLoc_setLoc_self (m : List (String × LocationRecord)) (k : String)
    (v : LocationRecord) : getLoc (setLoc m k v) k = some v := by
  induction m with
  | nil => simp [setLoc, getLoc]
  | cons p t ih =>
      by_cases hp : p.1 = k
      · simp [setLoc, getLoc, hp]
      · simp [setLoc, getLoc, hp, ih]

theorem mem_setLoc {m : List (String × LocationRecord)} {k : String}
    {v : LocationRecord} {p : String × LocationRecord} (hp : p ∈ setLoc m k v) :
    p = (k, v) ∨ p ∈ m := by
  induction m with
  | nil => simpa [setLoc] using hp
  | cons q t ih =>
      by_cases hq : q.1 = k
      · simp [setLoc, hq] at hp
        rcases hp with h | h
        · exact Or.inl (by simp [h])
        · exact Or.inr (by simp [h])
      · simp [setLoc, hq] at hp
        rcases hp with h | h
        · exact Or.inr (by simp [h])
        · rcases ih h with h2 | h2
          · exact Or.inl h2
          · exact Or.inr (by simp [h2])

theorem getLoc_eq_none_iff (m : List (String × LocationRecord)) (k : String) :
    getLoc m k = none ↔ ∀ p ∈ m, p.1 ≠ k := by
  induction m with
  | nil => simp [getLoc]
  | cons p t ih =>
      by_cases hp : p.1 = k
      · simp [getLoc, hp]
      · simp [getLoc, hp, ih]

theorem getLoc_map_tick (m : List (String × LocationRecord))
    (jit : String → ℚ × ℚ × ℚ) (now : ℕ) (k : String) :
    getLoc (m.map (fun p => (p.1, tickRecord (jit p.1) now p.2))) k =
      (getLoc m k).map (tickRecord (jit k) now) := by
  induction m with
  | nil => simp [getLoc]
  | cons p t ih =>
      by_cases hp : p.1 = k
      · simp [getLoc, hp]
      · simp [getLoc, hp, ih]

/-- The state returned by `ingest` is either the input state (a validation
failure) or the input state with `locationData` stored for the device. -/
theorem ingest_snd_cases (device lat lon speed : Option String) (now : ℕ)
    (st : ServerState) :
    (ingest device lat lon speed now st).2 = st ∨
    ∃ d la lo, device = some d ∧ lat = some la ∧ lon = some lo ∧
      (ingest device lat lon speed now st).2 =
        { st with busLocations :=
            setLoc st.busLocations d (ingestRecord st.busRoutes d la lo speed now) } := by
  match device, lat, lon with
  | none, _, _ => exact Or.inl rfl
  | some d, none, _ => exact Or.inl rfl
  | some d, some la, none => exact Or.inl rfl
  | some d, some la, some lo =>
      by_cases hd : d = ""
      · exact Or.inl (by simp [ingest, hd])
      · by_cases hna : ((parseFloat la).isNaN || (parseFloat lo).isNaN) = true
        · exact Or.inl (by simp [ingest, hd, hna])
        · refine Or.inr ⟨d, la, lo, rfl, rfl, rfl, ?_⟩
          simp [ingest, hd, hna]

/-- A valid ingest call: the exact response and state written. -/
theorem ingest_success (d la lo : String) (speed : Option String) (now : ℕ)
    (st : ServerState) (hd : d ≠ "") (hla : (parseFloat la).isNaN = false)
    (hlo : (parseFloat lo).isNaN = false) :
    ingest (some d) (some la) (some lo) speed now st =
      (.ok (ingestRecord st.busRoutes d la lo speed now),
       { st with busLocations :=
           setLoc st.busLocations d (ingestRecord st.busRoutes d la lo speed now) }) := by
  simp [ingest, hd, hla, hlo]

/-! ### JsFloat lemmas -/

theorem JsFloat.nonneg_of_gtZero {x : JsFloat} (h : x.gtZero = true) :
    x.nonneg = true := by
  cases x with
  | num q =>
      simp [JsFloat.gtZero] at h
      simp [JsFloat.nonneg, le_of_lt h]
  | nan => simp [JsFloat.gtZero] at h
  | negInf => simp [JsFloat.gtZero] at h
  | inf => simp [JsFloat.nonneg]

theorem JsFloat.nonneg_max0_add {x : JsFloat} (j : ℚ) (h : x.nonneg = true) :
    ((x.add (.num j)).max0).nonneg = true := by
  cases x with
  | num q => simp [JsFloat.add, JsFloat.max0, JsFloat.nonneg, le_max_right]
  | nan => simp [JsFloat.nonneg] at h
  | negInf => simp [JsFloat.nonneg] at h
  | inf => simp [JsFloat.add, JsFloat.max0, JsFloat.nonneg]

/-! ### Invariant preservation helpers -/

theorem storeInv_setLoc (P : LocationRecord → Prop)
    {m : List (String × LocationRecord)} {k : String} {v : LocationRecord}
    (hm : ∀ p ∈ m, P p.2) (hv : P v) : ∀ p ∈ setLoc m k v, P p.2 := by
  intro p hp
  rcases mem_setLoc hp with h | h
  · rw [h]; exact hv
  · exact hm p h

theorem storeInv_tick (P : LocationRecord → Prop) {st : ServerState}
    (jit : String → ℚ × ℚ × ℚ) (now : ℕ)
    (hm : ∀ p ∈ st.busLocations, P p.2)
    (hP : ∀ j n r, P r → P (tickRecord j n r)) :
    ∀ p ∈ (tick jit now st).busLocations, P p.2 := by
  intro p hp
  simp only [tick, List.mem_map] at hp
  obtain ⟨q, hq, rfl⟩ := hp
  exact hP _ _ _ (hm q hq)

/-! ### Claim C8 -/

/-- C8 counterexample: in the initial state, before any ingest call or
simulation tick, `get_one("BUS_101")` does not fail with `NotFound`: the
startup loop pre-seeds a record (first stop of its route, speed 0,
`stopped`) for every bus id listed in the sample routes. -/
theorem getOne_initial_cex :
    getOne "BUS_101" initialState ≠ .error .notFound ∧
    (getOne "BUS_101" initialState).toOption.map (fun r => (r.status, r.speed)) =
      some ("stopped", .num 0) := by
  decide

/-- C8 (amended): in the initial state `get_one` fails with `NotFound`
exactly for vehicle ids that are not pre-seeded from the sample routes;
the seeded ids already have records before any telemetry write. -/
theorem getOne_initial (id : String)
    (h : id ∉ ["BUS_101", "BUS_102", "BUS_201", "BUS_202"]) :
    getOne id initialState = .error .notFound := by
  have hkeys : ∀ p ∈ initialState.busLocations,
      p.1 ∈ ["BUS_101", "BUS_102", "BUS_201", "BUS_202"] := by decide
  have hnone : getLoc initialState.busLocations id = none :=
    (getLoc_eq_none_iff _ _).mpr (fun p hp he => h (he ▸ hkeys p hp))
  simp [getOne, hnone]

theorem getOne_initial_witness : getOne "BUS_999" initialState = .error .notFound :=
  getOne_initial "BUS_999" (by decide)

/-! ### Claim C10 -/

/-- C10: `parseFloat` keeps a numeric prefix, so an ingest whose `lat` is
`"12.5abc"` succeeds and stores `12.5` as the coordinate instead of
failing with `InvalidCoordinate`. -/
theorem ingest_accepts_numeric_prefix :
    parseFloat "12.5abc" = .num (25 / 2) ∧
    (ingest (some "BUS_101") (some "12.5abc") (some "0") none 0 initialState).1 =
      .ok (ingestRecord sampleRoutes "BUS_101" "12.5abc" "0" none 0) ∧
    (ingestRecord sampleRoutes "BUS_101" "12.5abc" "0" none 0).lat = .num (25 / 2) ∧
    getLoc (ingest (some "BUS_101") (some "12.5abc") (some "0") none 0
        initialState).2.busLocations "BUS_101" =
      some (ingestRecord sampleRoutes "BUS_101" "12.5abc" "0" none 0) := by
  have hp : parseFloat "12.5abc" = .num (mkRat 25 2) := by decide
  have hq : (mkRat 25 2 : ℚ) = 25 / 2 := by norm_num [Rat.mkRat_eq_div]
  have hlat : (ingestRecord sampleRoutes "BUS_101" "12.5abc" "0" none 0).lat =
      parseFloat "12.5abc" := rfl
  exact ⟨by rw [hp, hq], by decide, by rw [hlat, hp, hq], by decide⟩

/-! ### Claim C4 -/

/-- C4 counterexample: an ingest whose `lat` is missing is rejected with
the generic missing-fields response (shared with a missing device id),
not with the invalid-coordinate response. -/
theorem ingest_missing_lat_cex :
    ingest (some "BUS_101") none (some "0") none 0 initialState =
      (.error .missingFields, initialState) ∧
    IngestErr.missingFields ≠ IngestErr.invalidCoordinate :=
  ⟨rfl, by decide⟩

/-- C4 (amended): an ingest whose `lat`/`lon` is missing fails with
`MissingFields`, one whose `lat`/`lon` is present but parses to `NaN`
fails with `InvalidCoordinate`; in both cases the store is returned
completely unchanged, so any prior record keeps all of its fields. -/
theorem ingest_invalid_frame (d : String) (lat lon speed : Option String)
    (now : ℕ) (st : ServerState) (hd : d ≠ "") :
    ((lat = none ∨ lon = none) →
      ingest (some d) lat lon speed now st = (.error .missingFields, st)) ∧
    (∀ la lo, lat = some la → lon = some lo →
      ((parseFloat la).isNaN = true ∨ (parseFloat lo).isNaN = true) →
      ingest (some d) lat lon speed now st = (.error .invalidCoordinate, st)) := by
  constructor
  · rintro (rfl | rfl)
    · cases lon <;> rfl
    · cases lat <;> rfl
  · rintro la lo rfl rfl hnan
    have hb : ((parseFloat la).isNaN || (parseFloat lo).isNaN) = true := by
      rcases hnan with h | h <;> simp [h]
    simp [ingest, hd, hb]

theorem ingest_invalid_frame_witness :
    ingest (some "BUS_7") (some "not-a-number") (some "0") none 1 initialState =
      (.error .invalidCoordinate, initialState) :=
  (ingest_invalid_frame "BUS_7" (some "not-a-number") (some "0") none 1 initialState
    (by decide)).2 "not-a-number" "0" rfl rfl (Or.inl (by decide))

/-! ### Claim C5 -/

/-- C5 counterexample: `"Infinity"` parses to a non-`NaN` value, so the
`isNaN` validation accepts it: the ingest succeeds and stores an
infinite latitude instead of failing with `InvalidCoordinate`. -/
theorem ingest_infinity_cex :
    parseFloat "Infinity" = .inf ∧
    (ingest (some "BUS_101") (some "Infinity") (some "0") none 3 initialState).1 =
      .ok (ingestRecord sampleRoutes "BUS_101" "Infinity" "0" none 3) ∧
    (ingestRecord sampleRoutes "BUS_101" "Infinity" "0" none 3).lat = .inf ∧
    getLoc (ingest (some "BUS_101") (some "Infinity") (some "0") none 3
        initialState).2.busLocations "BUS_101" =
      some (ingestRecord sampleRoutes "BUS_101" "Infinity" "0" none 3) := by
  decide

/-- C5 (amended): ingest rejects a lat/lon value only when it parses to
`NaN`; any non-`NaN` parse — including `±Infinity` — is accepted, and the
parsed values are written to the store. -/
theorem ingest_accepts_nonNaN (d la lo : String) (speed : Option String) (now : ℕ)
    (st : ServerState) (hd : d ≠ "") (hla : (parseFloat la).isNaN = false)
    (hlo : (parseFloat lo).isNaN = false) :
    (ingest (some d) (some la) (some lo) speed now st).1 =
      .ok (ingestRecord st.busRoutes d la lo speed now) ∧
    (ingest (some d) (some la) (some lo) speed now st).2.busLocations =
      setLoc st.busLocations d (ingestRecord st.busRoutes d la lo speed now) ∧
    (ingestRecord st.busRoutes d la lo speed now).lat = parseFloat la ∧
    (ingestRecord st.busRoutes d la lo speed now).lon = parseFloat lo := by
  rw [ingest_success d la lo speed now st hd hla hlo]
  exact ⟨rfl, rfl, rfl, rfl⟩

theorem ingest_accepts_nonNaN_witness :
    (ingest (some "BUS_9") (some "Infinity") (some "1") none 2 initialState).1 =
      .ok (ingestRecord initialState.busRoutes "BUS_9" "Infinity" "1" none 2) ∧
    (ingest (some "BUS_9") (some "Infinity") (some "1") none 2 initialState).2.busLocations =
      setLoc initialState.busLocations "BUS_9"
        (ingestRecord initialState.busRoutes "BUS_9" "Infinity" "1" none 2) ∧
    (ingestRecord initialState.busRoutes "BUS_9" "Infinity" "1" none 2).lat =
      parseFloat "Infinity" ∧
    (ingestRecord initialState.busRoutes "BUS_9" "Infinity" "1" none 2).lon =
      parseFloat "1" :=
  ingest_accepts_nonNaN "BUS_9" "Infinity" "1" none 2 initialState
    (by decide) (by decide) (by decide)

/-! ### Claim C2 -/

/-- C2: for every state, a valid ingest (non-empty device id, lat/lon not
parsing to `NaN`, any speed) returns exactly `locationData` — parsed lat,
lon, speed, resolved route, derived status — and an immediate `get_one`
for that id returns the same record. The record depends only on the call's
arguments and the route registry, never on a previously stored record, so
the second of two sequential ingest calls fully overwrites the first. -/
theorem ingest_then_getOne (st : ServerState) (now : ℕ) (v la lo : String)
    (sp : Option String) (hv : v ≠ "") (hla : (parseFloat la).isNaN = false)
    (hlo : (parseFloat lo).isNaN = false) :
    (ingest (some v) (some la) (some lo) sp now st).1 =
      .ok (ingestRecord st.busRoutes v la lo sp now) ∧
    getOne v (ingest (some v) (some la) (some lo) sp now st).2 =
      .ok (ingestRecord st.busRoutes v la lo sp now) ∧
    (ingestRecord st.busRoutes v la lo sp now).device_id = v ∧
    (ingestRecord st.busRoutes v la lo sp now).lat = parseFloat la ∧
    (ingestRecord st.busRoutes v la lo sp now).lon = parseFloat lo ∧
    (ingestRecord st.busRoutes v la lo sp now).speed = (parseFloatOpt sp).orZero ∧
    (ingestRecord st.busRoutes v la lo sp now).route_id = findRouteId st.busRoutes v ∧
    (ingestRecord st.busRoutes v la lo sp now).updated = now ∧
    (ingestRecord st.busRoutes v la lo sp now).status =
      (if ((parseFloatOpt sp).orZero).gtZero then "active" else "stopped") := by
  rw [ingest_success v la lo sp now st hv hla hlo]
  refine ⟨rfl, ?_, rfl, rfl, rfl, rfl, rfl, rfl, rfl⟩
  simp [getOne, getLoc_setLoc_self]

theorem ingest_then_getOne_witness :
    getOne "BUS_101"
        (ingest (some "BUS_101") (some "11.2") (some "77.6") (some "35") 5
          initialState).2 =
      .ok (ingestRecord initialState.busRoutes "BUS_101" "11.2" "77.6" (some "35") 5) :=
  (ingest_then_getOne initialState 5 "BUS_101" "11.2" "77.6" (some "35")
    (by decide) (by decide) (by decide)).2.1

/-! ### Claim C6 -/

/-- C6: a route is returned by `search(from, to)` iff one of its stop
names (lowercased) contains the lowercased `from` and one contains the
lowercased `to`, independent of the two stops' order; on the sample
registry `search("Airport", "City")` and `search("city", "airport")`
both return `ROUTE_001` and `search("Nowhere", "Airport")` is empty. -/
theorem search_matches_spec :
    (∀ f t : String, f ≠ "" → t ≠ "" → ∀ st : ServerState,
      searchEndpoint (some f) (some t) st = .ok (searchRoutes f t st.busRoutes)) ∧
    (∀ (f t : String) (r : Route),
      r ∈ searchRoutes f t sampleRoutes ↔
        r ∈ sampleRoutes ∧
          (∃ s ∈ r.stops, strIncludes (strToLower s.name) (strToLower f) = true) ∧
          (∃ s ∈ r.stops, strIncludes (strToLower s.name) (strToLower t) = true)) ∧
    searchRoutes "Airport" "City" sampleRoutes = searchRoutes "city" "airport" sampleRoutes ∧
    (searchRoutes "city" "airport" sampleRoutes).map Route.id = ["ROUTE_001"] ∧
    searchRoutes "Nowhere" "Airport" sampleRoutes = [] := by
  refine ⟨?_, ?_, rfl, rfl, rfl⟩
  · intro f t hf ht st
    simp [searchEndpoint, hf, ht]
  · intro f t r
    simp only [searchRoutes, List.mem_filter, Bool.and_eq_true, List.any_eq_true,
      List.mem_map]
    constructor
    · rintro ⟨hr, ⟨⟨n, ⟨s, hs, rfl⟩, h1⟩, ⟨m, ⟨u, hu, rfl⟩, h2⟩⟩⟩
      exact ⟨hr, ⟨s, hs, h1⟩, ⟨u, hu, h2⟩⟩
    · rintro ⟨hr, ⟨s, hs, h1⟩, ⟨u, hu, h2⟩⟩
      exact ⟨hr, ⟨_, ⟨s, hs, rfl⟩, h1⟩, ⟨_, ⟨u, hu, rfl⟩, h2⟩⟩

theorem search_matches_spec_witness :
    searchEndpoint (some "city") (some "airport") initialState =
      .ok (searchRoutes "city" "airport" sampleRoutes) :=
  search_matches_spec.1 "city" "airport" (by decide) (by decide) initialState

/-! ### Claim C3 -/

theorem strData_append (s t : String) : (s ++ t).data = s.data ++ t.data := by
  cases s; cases t; rfl

theorem min_suffix_last (s : String) : (s ++ " min").data.reverse.head? = some 'n' := by
  rw [strData_append, List.reverse_append]
  rfl

theorem min_string_ne_sentinels (s : String) :
    s ++ " min" ≠ "Stopped" ∧ s ++ " min" ≠ "Arrived" := by
  constructor <;> intro h
  · have h2 : (s ++ " min").data.reverse.head? = ("Stopped" : String).data.reverse.head? :=
      congrArg (fun x : String => x.data.reverse.head?) h
    rw [min_suffix_last] at h2
    exact absurd h2 (by decide)
  · have h2 : (s ++ " min").data.reverse.head? = ("Arrived" : String).data.reverse.head? :=
      congrArg (fun x : String => x.data.reverse.head?) h
    rw [min_suffix_last] at h2
    exact absurd h2 (by decide)

/-- C3 (amended): `calculateETA` returns `Stopped` iff the speed is
exactly 0; otherwise it returns `Arrived` iff `n ≤ 0` where
`n = round(distance / speed * 60)` (round half towards `+∞`), and
otherwise the string `"<n> min"` — not `"<n> minutes"` — with that same
`n`. Stated for every distance function, abstracting the haversine. -/
theorem calculateETA_spec (dist : ℚ → ℚ → ℚ → ℚ → ℚ) (a b c d speed : ℚ) :
    (calculateETA dist a b c d speed = "Stopped" ↔ speed = 0) ∧
    (speed ≠ 0 →
      ((calculateETA dist a b c d speed = "Arrived" ↔
        jsRound (dist a b c d / speed * 60) ≤ 0) ∧
      (0 < jsRound (dist a b c d / speed * 60) →
        calculateETA dist a b c d speed =
          toString (jsRound (dist a b c d / speed * 60)) ++ " min"))) := by
  by_cases hs : speed = 0
  · subst hs
    refine ⟨by simp [calculateETA], fun h => absurd rfl h⟩
  · refine ⟨⟨fun h => ?_, fun h => absurd h hs⟩, fun _ => ⟨⟨fun h => ?_, fun h => ?_⟩, fun h => ?_⟩⟩
    · by_cases hn : 0 < jsRound (dist a b c d / speed * 60)
      · rw [calculateETA, if_neg hs] at h
        simp only [hn, if_pos] at h
        exact absurd h (min_string_ne_sentinels _).1
      · rw [calculateETA, if_neg hs] at h
        simp only [hn, if_false] at h
        exact absurd h (by decide)
    · by_cases hn : 0 < jsRound (dist a b c d / speed * 60)
      · rw [calculateETA, if_neg hs] at h
        simp only [hn, if_pos] at h
        exact absurd h (min_string_ne_sentinels _).2
      · omega
    · rw [calculateETA, if_neg hs]
      simp only [show ¬ 0 < jsRound (dist a b c d / speed * 60) by omega, if_false]
    · rw [calculateETA, if_neg hs]
      simp only [h, if_pos]

/-- C3 counterexample: at the spec's own worked example (4.74 km at
30 km/h, rounded minutes 9 > 0) the code returns the string `"9 min"`,
not `"9 minutes"` as the claim states. -/
theorem calculateETA_min_not_minutes :
    jsRound ((474 / 100 : ℚ) / 30 * 60) = 9 ∧
    calculateETA (fun _ _ _ _ => (474 / 100 : ℚ)) 0 0 0 0 30 = "9 min" ∧
    calculateETA (fun _ _ _ _ => (474 / 100 : ℚ)) 0 0 0 0 30 ≠ "9 minutes" := by
  have hn : jsRound ((474 / 100 : ℚ) / 30 * 60) = 9 := by
    rw [show ((474 / 100 : ℚ) / 30 * 60) = 237 / 25 by norm_num]
    unfold jsRound
    rw [show ((237 / 25 : ℚ) + 1 / 2) = 499 / 50 by norm_num]
    norm_num [Int.floor_eq_iff]
  have heta : calculateETA (fun _ _ _ _ => (474 / 100 : ℚ)) 0 0 0 0 30 = "9 min" := by
    show (if (30 : ℚ) = 0 then "Stopped"
      else if 0 < jsRound ((474 / 100 : ℚ) / 30 * 60) then
        toString (jsRound ((474 / 100 : ℚ) / 30 * 60)) ++ " min"
      else "Arrived") = "9 min"
    rw [if_neg (by norm_num : ¬ (30 : ℚ) = 0), hn]
    decide
  exact ⟨hn, heta, by rw [heta]; decide⟩

theorem calculateETA_spec_witness :
    (calculateETA (fun _ _ _ _ => (474 / 100 : ℚ)) 0 0 0 0 30 = "Stopped" ↔
      (30 : ℚ) = 0) :=
  (calculateETA_spec (fun _ _ _ _ => (474 / 100 : ℚ)) 0 0 0 0 30).1

/-! ### Claim C1 -/

theorem ingestRecord_statusSpeedOK (routes : List Route) (d la lo : String)
    (speed : Option String) (now : ℕ) :
    StatusSpeedOK (ingestRecord routes d la lo speed now) := by
  by_cases hg : ((parseFloatOpt speed).orZero).gtZero = true
  · refine ⟨Or.inl (by simp [ingestRecord, hg]), fun h => ?_, fun _ => ?_⟩
    · simp [ingestRecord, hg] at h
    · simpa [ingestRecord] using JsFloat.nonneg_of_gtZero hg
  · have hg' : ((parseFloatOpt speed).orZero).gtZero = false := by
      cases hb : ((parseFloatOpt speed).orZero).gtZero
      · rfl
      · exact absurd hb hg
    refine ⟨Or.inr (by simp [ingestRecord, hg']), fun _ => ?_, fun h => ?_⟩
    · simpa [ingestRecord] using hg'
    · simp [ingestRecord, hg'] at h

theorem tickRecord_statusSpeedOK (j : ℚ × ℚ × ℚ) (n : ℕ) (r : LocationRecord)
    (hP : StatusSpeedOK r) : StatusSpeedOK (tickRecord j n r) := by
  by_cases ha : r.status = "active"
  · have hs : (tickRecord j n r).status = "active" := by simp [tickRecord, ha]
    refine ⟨Or.inl hs, fun h => ?_, fun _ => ?_⟩
    · rw [hs] at h
      exact absurd h (by decide)
    · have hsp : (tickRecord j n r).speed = (r.speed.add (.num j.2.2)).max0 := by
        simp [tickRecord, ha]
      rw [hsp]
      cases hp : r.speed with
      | num q => simp [JsFloat.add, JsFloat.max0, JsFloat.nonneg, le_max_right]
      | inf => simp [JsFloat.add, JsFloat.max0, JsFloat.nonneg]
      | nan =>
          have hnn := hP.2.2 ha
          rw [hp] at hnn
          simp [JsFloat.nonneg] at hnn
      | negInf =>
          have hnn := hP.2.2 ha
          rw [hp] at hnn
          simp [JsFloat.nonneg] at hnn
  · have hid : tickRecord j n r = r := by simp [tickRecord, ha]
    rw [hid]
    exact hP

/-- C1 (amended): `status` is always one of `active`/`stopped`, and it is
`active` iff `speed > 0` as of the write that last derived it (seeding or
ingest); a simulation tick rewrites `speed` without re-deriving `status`,
so in a reachable state a `stopped` record never has `speed > 0` while an
`active` record only satisfies `speed ≥ 0` — its speed may have decayed
to exactly 0 with `status` still `active`. -/
theorem status_speed_inv (s : ServerState) (h : Reach s) :
    ∀ p ∈ s.busLocations, StatusSpeedOK p.2 := by
  induction h with
  | init => decide
  | ingest device lat lon speed now st hst hok ih =>
      rcases ingest_snd_cases device lat lon speed now st with hcase | ⟨d, la, lo, _, _, _, hcase⟩
      · rw [hcase]; exact ih
      · rw [hcase]
        exact storeInv_setLoc StatusSpeedOK ih
          (ingestRecord_statusSpeedOK st.busRoutes d la lo speed now)
  | tick jit now st hst hj ih =>
      exact storeInv_tick StatusSpeedOK jit now ih
        (fun j n r hr => tickRecord_statusSpeedOK j n r hr)

theorem status_speed_inv_witness :
    StatusSpeedOK (seedRecord (sampleRoutes.headD ⟨"", "", [], []⟩) "BUS_101") :=
  status_speed_inv initialState ReachW.init
    ("BUS_101", seedRecord (sampleRoutes.headD ⟨"", "", [], []⟩) "BUS_101")
    (List.Mem.head _)

/-- C1 counterexample: from the initial state, ingest `BUS_101` at speed 3
(making it `active`), then run one tick whose admissible random speed
delta is `-3`: the stored record now has `status = "active"` and
`speed = 0`, so `status = active` does not imply `speed > 0` after the
operation (the tick) that last wrote the record. -/
theorem status_speed_cex :
    Reach c1Bad ∧
    (getLoc c1Bad.busLocations "BUS_101").map (fun r => (r.status, r.speed)) =
      some ("active", .num 0) := by
  constructor
  · have h0 : ReachW (fun _ => True) initialState := ReachW.init
    have h1 : ReachW (fun _ => True) c1Mid :=
      ReachW.ingest (some "BUS_101") (some "11.16") (some "77.59") (some "3") 1
        initialState h0 trivial
    exact ReachW.tick (fun _ => (0, 0, -3)) 2 c1Mid h1
      (fun b => ⟨by norm_num, by norm_num, by norm_num, by norm_num, by norm_num, by norm_num⟩)
  · decide

/-! ### Claim C9 -/

/-- C9 counterexample: `parseFloat(speed) || 0` keeps a parsed negative
speed (`-5` is truthy), so the ingest succeeds and stores `speed = -5`:
a reachable state contains a record with negative speed. -/
theorem speed_nonneg_cex :
    Reach c9Bad ∧
    (ingest (some "BUS_101") (some "11") (some "77") (some "-5") 1 initialState).1 =
      .ok (ingestRecord sampleRoutes "BUS_101" "11" "77" (some "-5") 1) ∧
    (getLoc c9Bad.busLocations "BUS_101").map (fun r => r.speed.nonneg) = some false ∧
    (getLoc c9Bad.busLocations "BUS_101").map (fun r => r.speed) =
      some (.num (mkRat (-5) 1)) := by
  refine ⟨?_, by decide, by decide, by decide⟩
  exact ReachW.ingest (some "BUS_101") (some "11") (some "77") (some "-5") 1
    initialState ReachW.init trivial

/-- C9 (amended): every record's speed is non-negative in the initial
state, stays non-negative across every simulation tick
(`speed = max(0, ...)`), and stays non-negative across every ingest whose
speed argument parses-and-defaults to a non-negative value; an ingest
with a parseable negative speed, however, stores that negative value. -/
theorem speed_nonneg_inv (s : ServerState) (h : ReachW NonnegSpeedInput s) :
    ∀ p ∈ s.busLocations, p.2.speed.nonneg = true := by
  induction h with
  | init => decide
  | ingest device lat lon speed now st hst hok ih =>
      rcases ingest_snd_cases device lat lon speed now st with hcase | ⟨d, la, lo, _, _, _, hcase⟩
      · rw [hcase]; exact ih
      · rw [hcase]
        refine storeInv_setLoc (fun r => r.speed.nonneg = true) ih ?_
        simpa [ingestRecord] using hok
  | tick jit now st hst hj ih =>
      refine storeInv_tick (fun r => r.speed.nonneg = true) jit now ih ?_
      intro j n r hr
      by_cases ha : r.status = "active"
      · have hsp : (tickRecord j n r).speed = (r.speed.add (.num j.2.2)).max0 := by
          simp [tickRecord, ha]
        rw [hsp]
        exact JsFloat.nonneg_max0_add _ hr
      · have hid : tickRecord j n r = r := by simp [tickRecord, ha]
        rw [hid]
        exact hr

theorem speed_nonneg_inv_witness :
    (seedRecord (sampleRoutes.headD ⟨"", "", [], []⟩) "BUS_101").speed.nonneg = true :=
  speed_nonneg_inv initialState ReachW.init
    ("BUS_101", seedRecord (sampleRoutes.headD ⟨"", "", [], []⟩) "BUS_101")
    (List.Mem.head _)

/-! ### Claim C7 -/

/-- C7 (amended): in one simulation tick a record whose status is not
`active` is completely unchanged; an `active` record keeps its
`device_id`, `route_id` and `status`, gets `updated_at := now` (strictly
advancing when `now` is later than the record's last write), and has
`lat`/`lon` shifted by exactly the random deltas — which satisfy
`-0.0005 ≤ d < 0.0005`, so the change can be exactly `-0.0005` in
magnitude `0.0005`, not strictly below it — and
`speed := max(0, speed + d)` with `-5 ≤ d < 5`. -/
theorem tick_frame (jit : String → ℚ × ℚ × ℚ) (now : ℕ) (st : ServerState)
    (k : String) (r : LocationRecord) (hj : jitterOK (jit k))
    (hr : getLoc st.busLocations k = some r) :
    getLoc (tick jit now st).busLocations k = some (tickRecord (jit k) now r) ∧
    (r.status ≠ "active" → tickRecord (jit k) now r = r) ∧
    (r.status = "active" →
      (tickRecord (jit k) now r).device_id = r.device_id ∧
      (tickRecord (jit k) now r).route_id = r.route_id ∧
      (tickRecord (jit k) now r).status = r.status ∧
      (tickRecord (jit k) now r).updated = now ∧
      (r.updated < now → r.updated < (tickRecord (jit k) now r).updated) ∧
      (tickRecord (jit k) now r).lat = r.lat.add (.num (jit k).1) ∧
      (tickRecord (jit k) now r).lon = r.lon.add (.num (jit k).2.1) ∧
      (tickRecord (jit k) now r).speed = (r.speed.add (.num (jit k).2.2)).max0 ∧
      -(1 / 2000) ≤ (jit k).1 ∧ (jit k).1 < 1 / 2000 ∧
      -(1 / 2000) ≤ (jit k).2.1 ∧ (jit k).2.1 < 1 / 2000 ∧
      -5 ≤ (jit k).2.2 ∧ (jit k).2.2 < 5) := by
  obtain ⟨h1, h2, h3, h4, h5, h6⟩ := hj
  refine ⟨?_, fun ha => by simp [tickRecord, ha], fun ha => ?_⟩
  · show getLoc (st.busLocations.map (fun p => (p.1, tickRecord (jit p.1) now p.2))) k = _
    rw [getLoc_map_tick, hr]
    rfl
  · refine ⟨by simp [tickRecord, ha], by simp [tickRecord, ha], by simp [tickRecord, ha],
      by simp [tickRecord, ha], ?_, by simp [tickRecord, ha], by simp [tickRecord, ha],
      by simp [tickRecord, ha], h1, h2, h3, h4, h5, h6⟩
    intro hlt
    have hupd : (tickRecord (jit k) now r).updated = now := by simp [tickRecord, ha]
    rw [hupd]
    exact hlt

theorem tick_frame_witness :
    getLoc (tick c7Jit 2 c7Mid).busLocations "BUS_101" =
      some (tickRecord (c7Jit "BUS_101") 2
        (ingestRecord sampleRoutes "BUS_101" "0" "0" (some "3") 1)) :=
  (tick_frame c7Jit 2 c7Mid "BUS_101"
    (ingestRecord sampleRoutes "BUS_101" "0" "0" (some "3") 1)
    ⟨by norm_num [c7Jit, Rat.mkRat_eq_div], by norm_num [c7Jit, Rat.mkRat_eq_div],
     by norm_num [c7Jit], by norm_num [c7Jit], by norm_num [c7Jit], by norm_num [c7Jit]⟩
    (by decide)).1

/-- C7 counterexample: the random latitude delta is
`(Math.random() - 0.5) * 0.001` with `Math.random() ∈ [0, 1)`, so the
draw `Math.random() = 0` gives a delta of exactly `-0.0005`: after the
tick the active record's latitude has changed by magnitude exactly
`0.0005`, which is not strictly less than `0.0005`. -/
theorem tick_strict_bound_cex :
    jitterOK (c7Jit "BUS_101") ∧
    Reach c7Bad ∧
    (getLoc c7Mid.busLocations "BUS_101").map (fun r => (r.status, r.lat)) =
      some ("active", .num 0) ∧
    (getLoc c7Bad.busLocations "BUS_101").map (fun r => r.lat) =
      some (.num (mkRat (-1) 2000)) ∧
    ¬ |(mkRat (-1) 2000 : ℚ) - 0| < 1 / 2000 := by
  have habs : |(mkRat (-1) 2000 : ℚ) - 0| = 1 / 2000 := by
    rw [show (mkRat (-1) 2000 : ℚ) - 0 = -(1 / 2000) by norm_num [Rat.mkRat_eq_div],
      abs_neg, abs_of_pos (by norm_num)]
  refine ⟨⟨by norm_num [c7Jit, Rat.mkRat_eq_div], by norm_num [c7Jit, Rat.mkRat_eq_div],
      by norm_num [c7Jit], by norm_num [c7Jit], by norm_num [c7Jit], by norm_num [c7Jit]⟩,
    ?_, by decide, by decide, by rw [habs]; exact lt_irrefl _⟩
  have h1 : ReachW (fun _ => True) c7Mid :=
    ReachW.ingest (some "BUS_101") (some "0") (some "0") (some "3") 1
      initialState ReachW.init trivial
  exact ReachW.tick c7Jit 2 c7Mid h1
    (fun b => ⟨by norm_num [c7Jit, Rat.mkRat_eq_div], by norm_num [c7Jit, Rat.mkRat_eq_div],
      by norm_num [c7Jit], by norm_num [c7Jit], by norm_num [c7Jit], by norm_num [c7Jit]⟩)
